import Mathlib

/-!
Verification development for the azure-nodejs-api repository: a shallow
embedding of the Express application (src/app.js), the PostgreSQL-backed
task store (src/databaseService.js), the blob storage wrapper
(src/storageService.js), and the database-endpoint variant of the
application, together with theorems about the request/response contract.

Modelling conventions:
* machine time (Date.now, CURRENT_TIMESTAMP) is an explicit natural-number
  clock parameter;
* the PostgreSQL table behind DatabaseService is an explicit list of rows
  plus the SERIAL sequence counter; SQL statement effects (INSERT/SELECT/
  UPDATE/DELETE WHERE id) are modelled row by row;
* reachability of a backing service (network, database, blob store) is an
  explicit environment flag, since the code treats backing failures as
  thrown errors caught at handler boundaries;
* JavaScript value coercions used by the code (parseInt, the || default
  idiom, Array.prototype.slice, default function parameters, truthiness of
  strings) are modelled by dedicated functions below.
-/

namespace AzureApi

/-! ## JavaScript primitive semantics -/

/-- Value of a character as a digit in the given radix, as JavaScript
parseInt accepts it (0-9, a-z, A-Z, rejected when at or above the radix). -/
def digitVal? (radix : Nat) (c : Char) : Option Nat :=
  let v : Option Nat :=
    if '0' ≤ c ∧ c ≤ '9' then some (c.toNat - '0'.toNat)
    else if 'a' ≤ c ∧ c ≤ 'z' then some (c.toNat - 'a'.toNat + 10)
    else if 'A' ≤ c ∧ c ≤ 'Z' then some (c.toNat - 'A'.toNat + 10)
    else none
  match v with
  | some n => if n < radix then some n else none
  | none => none

/-- Accumulate the longest digit run, as parseInt does: it stops at the
first non-digit and keeps what was parsed so far; `none` as the
accumulator means no digit has been consumed yet (NaN). -/
def parseDigits (radix : Nat) : Option Nat → List Char → Option Nat
  | acc, [] => acc
  | acc, c :: cs =>
    match digitVal? radix c with
    | some d => parseDigits radix (some ((acc.getD 0) * radix + d)) cs
    | none => acc

/-- JavaScript parseInt(s) with no radix argument: skip leading
whitespace, optional sign, 0x/0X hexadecimal marker, then the longest
digit run; no digits means NaN, modelled as `none`.  `parseInt(undefined)`
is NaN, hence the `Option String` argument. -/
def parseIntJS (s : Option String) : Option Int :=
  match s with
  | none => none
  | some str =>
    let cs := str.toList.dropWhile fun c =>
      c = ' ' ∨ c = '\t' ∨ c = '\n' ∨ c = '\r'
    let signed : Int × List Char :=
      match cs with
      | '-' :: rest => (-1, rest)
      | '+' :: rest => (1, rest)
      | rest => (1, rest)
    let based : Nat × List Char :=
      match signed.2 with
      | '0' :: 'x' :: rest => (16, rest)
      | '0' :: 'X' :: rest => (16, rest)
      | rest => (10, rest)
    match parseDigits based.1 none based.2 with
    | none => none
    | some n => some (signed.1 * n)

/-- The JavaScript idiom `parseInt(x) || d`: NaN, 0 and -0 are falsy and
fall back to the default. -/
def jsOrDefault (v : Option Int) (d : Int) : Int :=
  match v with
  | none => d
  | some n => if n = 0 then d else n

/-- The JavaScript idiom `process.env.X || d` for strings: undefined and
the empty string are falsy. -/
def jsStrOr (s : Option String) (d : String) : String :=
  match s with
  | none => d
  | some v => if v = "" then d else v

/-- JavaScript truthiness of a possibly-absent string (`if (!title)`). -/
def jsTruthy (s : Option String) : Bool :=
  match s with
  | none => false
  | some v => v ≠ ""

/-- JavaScript Array.prototype.slice(0, e) with a possibly negative end index:
a negative end counts from the end of the array, clamped at 0. -/
def jsSliceTo {α : Type} (l : List α) (e : Int) : List α :=
  let n : Int := l.length
  let stop : Int := if e < 0 then max (n + e) 0 else min e n
  l.take stop.toNat

/-- Rendering of a parsed-integer value inside a template literal:
NaN prints as "NaN". -/
def jsNumToString (v : Option Int) : String :=
  match v with
  | none => "NaN"
  | some n => toString n

/-! ## Telemetry sink (applicationinsights client)

The Application Insights track* calls are fire-and-forget: per the SDK
contract (spec section 4.4) they return normally and swallow delivery
failures internally.  `configured` models `appInsights &&
appInsights.defaultClient` being truthy; `deliverOk = false` models an
internal sink failure, which loses the emission but still returns.
Event property payloads are elided: only event names are recorded. -/

structure Telemetry where
  configured : Bool
  deliverOk : Bool
deriving DecidableEq, Repr

/-- One guarded `trackEvent`/`trackMetric`/`trackException` call site:
emits nothing when the client is absent, and the emission is lost when
the sink fails internally. -/
def Telemetry.track (t : Telemetry) (name : String) : List String :=
  if t.configured ∧ t.deliverOk then [name] else []

/-! ## Environment-derived configuration (src/app.js lines 27-29) -/

structure AppConfig where
  apiVersion : String
  environment : String
  maxTasks : Int
deriving DecidableEq, Repr

/-- Configuration lines of app.js: API_VERSION and ENVIRONMENT default
via the || idiom to "1.0.0" and "development"; MAX_TASKS is
parseInt(process.env.MAX_TASKS) || 10. -/
def AppConfig.ofEnv (apiVersionEnv environmentEnv maxTasksEnv : Option String) :
    AppConfig :=
  { apiVersion := jsStrOr apiVersionEnv "1.0.0"
    environment := jsStrOr environmentEnv "development"
    maxTasks := jsOrDefault (parseIntJS maxTasksEnv) 10 }

/-! ## In-memory task variant (src/app.js) -/

structure MemTask where
  id : Int
  title : String
  completed : Bool
deriving DecidableEq, Repr

/-- The hardcoded list built on every GET /api/tasks request
(src/app.js lines 66-72). -/
def allTasks : List MemTask :=
  [ ⟨1, "Learn Azure App Service", true⟩
  , ⟨2, "Deploy to Azure", true⟩
  , ⟨3, "Master DevOps", false⟩
  , ⟨4, "Configure Environment Variables", true⟩
  , ⟨5, "Add Application Insights", true⟩ ]

structure TasksBody where
  tasks : List MemTask
  total : Nat
  maxAllowed : Int
  environment : String
deriving DecidableEq, Repr

/-- Outcome of a handler of the in-memory family: HTTP status, JSON body,
telemetry emissions that reached the sink. -/
structure MemOutcome (β : Type) where
  status : Nat
  body : β
  events : List String
deriving DecidableEq, Repr

/-- GET /api/tasks (src/app.js lines 63-100): slice the hardcoded list to
MAX_TASKS, emit a metric and an event, respond 200. -/
def getTasksHandler (cfg : AppConfig) (tel : Telemetry) : MemOutcome TasksBody :=
  let tasks := jsSliceTo allTasks cfg.maxTasks
  { status := 200
    body :=
      { tasks := tasks
        total := tasks.length
        maxAllowed := cfg.maxTasks
        environment := cfg.environment }
    events := tel.track "TasksRetrievalTime" ++ tel.track "TasksRetrieved" }

structure TaskByIdBody where
  id : Option Int
  title : String
  completed : Bool
deriving DecidableEq, Repr

/-- GET /api/tasks/:id (src/app.js lines 103-118): parse the path
parameter with parseInt (`none` models NaN) and synthesize a record;
always 200. -/
def getTaskByIdHandler (tel : Telemetry) (idParam : String) :
    MemOutcome TaskByIdBody :=
  let taskId := parseIntJS (some idParam)
  { status := 200
    body :=
      { id := taskId
        title := "Task " ++ jsNumToString taskId
        completed := false }
    events := tel.track "TaskByIdRequested" }

/-! ## Persistent task store (src/databaseService.js)

The backing PostgreSQL table (schema from initializeTables):
id SERIAL PRIMARY KEY, title VARCHAR(255) NOT NULL, description TEXT,
completed BOOLEAN DEFAULT false, created_at / updated_at TIMESTAMP
DEFAULT CURRENT_TIMESTAMP.  A row is a `DbTask`; the table state also
carries the SERIAL sequence counter that assigns the next id. -/

structure DbTask where
  id : Nat
  title : String
  description : String
  completed : Bool
  created_at : Nat
  updated_at : Nat
deriving DecidableEq, Repr

structure DbState where
  rows : List DbTask
  nextId : Nat
deriving DecidableEq, Repr

/-- Well-formedness of a reachable table state: ids already assigned are
below the sequence counter (so fresh ids never collide) and rows carry
pairwise distinct ids (id is the primary key). -/
def DbState.WF (st : DbState) : Prop :=
  (∀ t ∈ st.rows, t.id < st.nextId) ∧
    st.rows.Pairwise (fun a b => a.id ≠ b.id)

/-- The service object: constructor stores only whether DATABASE_URL was
present (isConfigured) and whether a pg Pool was constructed. -/
structure DatabaseService where
  isConfigured : Bool
  poolCreated : Bool
deriving DecidableEq, Repr

/-- What the DatabaseService constructor did (lines 4-30): the service it
produced, whether it returned normally, and whether any connection was
attempted (Pool construction plus the testConnection query). -/
structure ConstructOutcome where
  service : DatabaseService
  returnedNormally : Bool
  connectionAttempted : Bool
deriving DecidableEq, Repr

/-- Constructor run of new DatabaseService() with the given DATABASE_URL
value: a missing
or empty (falsy) connection string short-circuits to an unconfigured
service before any Pool is created; otherwise a Pool is created and a
test query issued.  Errors are caught, so the constructor always returns. -/
def DatabaseService.construct (databaseUrl : Option String) : ConstructOutcome :=
  if jsTruthy databaseUrl then
    { service := { isConfigured := true, poolCreated := true }
      returnedNormally := true
      connectionAttempted := true }
  else
    { service := { isConfigured := false, poolCreated := false }
      returnedNormally := true
      connectionAttempted := false }

/-- Backing-store environment: whether the pool can reach PostgreSQL, and
the message of the error raised when it cannot. -/
structure DbEnv where
  reachable : Bool
  failMsg : String
deriving DecidableEq, Repr

/-- Outcome of one DatabaseService method: the thrown-or-returned result,
the table state afterwards, and the SQL statements sent to the pool. -/
structure DbOutcome (α : Type) where
  result : Except String α
  state : DbState
  queries : List String
deriving Repr

/-- Stable insertion for ORDER BY created_at DESC. -/
def insertByCreatedDesc (t : DbTask) : List DbTask → List DbTask
  | [] => [t]
  | u :: us =>
    if t.created_at ≤ u.created_at then u :: insertByCreatedDesc t us
    else t :: u :: us

/-- Rows ordered newest-created first, as `SELECT * FROM tasks ORDER BY
created_at DESC` returns them (tie order is unspecified in SQL; modelled
as stable). -/
def sortByCreatedDesc (rows : List DbTask) : List DbTask :=
  rows.foldr insertByCreatedDesc []

/-- getAllTasks (lines 66-75). -/
def DatabaseService.getAllTasks (svc : DatabaseService) (env : DbEnv)
    (st : DbState) : DbOutcome (List DbTask) :=
  if svc.isConfigured = false then
    ⟨.error "Database not configured", st, []⟩
  else if env.reachable = false then
    ⟨.error env.failMsg, st, ["SELECT * FROM tasks ORDER BY created_at DESC"]⟩
  else
    ⟨.ok (sortByCreatedDesc st.rows), st,
      ["SELECT * FROM tasks ORDER BY created_at DESC"]⟩

/-- getTaskById (lines 77-87): `SELECT * FROM tasks WHERE id = $1`, then
`result.rows[0]` — `none` models rows[0] being undefined. -/
def DatabaseService.getTaskById (svc : DatabaseService) (env : DbEnv)
    (st : DbState) (id : Nat) : DbOutcome (Option DbTask) :=
  if svc.isConfigured = false then
    ⟨.error "Database not configured", st, []⟩
  else if env.reachable = false then
    ⟨.error env.failMsg, st, ["SELECT * FROM tasks WHERE id = $1"]⟩
  else
    ⟨.ok (st.rows.find? fun t => t.id == id), st,
      ["SELECT * FROM tasks WHERE id = $1"]⟩

/-- createTask (lines 89-99): `INSERT INTO tasks (title, description)
VALUES ($1, $2) RETURNING *`.  The JavaScript default parameter
(description defaulting to the empty string) fires when the caller
passes undefined.  The SERIAL
sequence assigns the id; completed defaults to false and both timestamps
to CURRENT_TIMESTAMP.  A title longer than the VARCHAR(255) column
rejects the insert. -/
def DatabaseService.createTask (svc : DatabaseService) (env : DbEnv)
    (st : DbState) (now : Nat) (title : String) (description : Option String) :
    DbOutcome DbTask :=
  if svc.isConfigured = false then
    ⟨.error "Database not configured", st, []⟩
  else if env.reachable = false then
    ⟨.error env.failMsg, st,
      ["INSERT INTO tasks (title, description) VALUES ($1, $2) RETURNING *"]⟩
  else if 255 < title.length then
    ⟨.error "value too long for type character varying(255)", st,
      ["INSERT INTO tasks (title, description) VALUES ($1, $2) RETURNING *"]⟩
  else
    let t : DbTask :=
      { id := st.nextId
        title := title
        description := description.getD ""
        completed := false
        created_at := now
        updated_at := now }
    ⟨.ok t, { rows := st.rows ++ [t], nextId := st.nextId + 1 },
      ["INSERT INTO tasks (title, description) VALUES ($1, $2) RETURNING *"]⟩

/-- updateTask (lines 101-114): `UPDATE tasks SET title = $1,
description = $2, completed = $3, updated_at = CURRENT_TIMESTAMP WHERE
id = $4 RETURNING *`, then `result.rows[0]`.  Every row matching the id
is rewritten (the primary key makes at most one); the returned row is the
first match, after the update. -/
def DatabaseService.updateTask (svc : DatabaseService) (env : DbEnv)
    (st : DbState) (now : Nat) (id : Nat) (title description : String)
    (completed : Bool) : DbOutcome (Option DbTask) :=
  if svc.isConfigured = false then
    ⟨.error "Database not configured", st, []⟩
  else if env.reachable = false then
    ⟨.error env.failMsg, st, ["UPDATE tasks SET ... WHERE id = $4 RETURNING *"]⟩
  else if 255 < title.length then
    ⟨.error "value too long for type character varying(255)", st,
      ["UPDATE tasks SET ... WHERE id = $4 RETURNING *"]⟩
  else
    let upd : DbTask → DbTask := fun t =>
      { t with
          title := title
          description := description
          completed := completed
          updated_at := now }
    ⟨.ok ((st.rows.find? fun t => t.id == id).map upd),
      { st with rows := st.rows.map fun t => if t.id == id then upd t else t },
      ["UPDATE tasks SET ... WHERE id = $4 RETURNING *"]⟩

/-- deleteTask (lines 116-126): `DELETE FROM tasks WHERE id = $1
RETURNING *`, then `result.rows[0]`. -/
def DatabaseService.deleteTask (svc : DatabaseService) (env : DbEnv)
    (st : DbState) (id : Nat) : DbOutcome (Option DbTask) :=
  if svc.isConfigured = false then
    ⟨.error "Database not configured", st, []⟩
  else if env.reachable = false then
    ⟨.error env.failMsg, st, ["DELETE FROM tasks WHERE id = $1 RETURNING *"]⟩
  else
    ⟨.ok (st.rows.find? fun t => t.id == id),
      { st with rows := st.rows.filter fun t => t.id != id },
      ["DELETE FROM tasks WHERE id = $1 RETURNING *"]⟩

/-- initializeTables (lines 41-64): `CREATE TABLE IF NOT EXISTS tasks` —
idempotent, no effect on an existing table in this model. -/
def DatabaseService.initializeTables (svc : DatabaseService) (env : DbEnv)
    (st : DbState) : DbOutcome Unit :=
  if svc.isConfigured = false then
    ⟨.error "Database not configured", st, []⟩
  else if env.reachable = false then
    ⟨.error env.failMsg, st, ["CREATE TABLE IF NOT EXISTS tasks"]⟩
  else
    ⟨.ok (), st, ["CREATE TABLE IF NOT EXISTS tasks"]⟩

/-- Startup wiring of the database app variant (lines 38-43): call
initializeTables only when configured; its failure is caught, so startup
always completes. -/
structure StartupOutcome where
  started : Bool
  queries : List String
deriving DecidableEq, Repr

def appStartup (svc : DatabaseService) (env : DbEnv) (st : DbState) :
    StartupOutcome :=
  if svc.isConfigured then
    { started := true, queries := (svc.initializeTables env st).queries }
  else
    { started := true, queries := [] }

/-! ## Database endpoint handlers (the /api/db/... app variant)

Path ids are modelled as naturals: the handlers pass req.params.id
through to the parameterized WHERE id = $1 query, where pg casts it to
the integer column type.  Response bodies are modelled structurally:
`errBody e m i` is `{ error: e, message?: m, id?: i }`, `listBody` is
`{ success, count, tasks }`, `itemBody` is `{ success, message?, task }`. -/

inductive DbBody where
  | errBody (error : String) (message : Option String) (id : Option Nat)
  | listBody (success : Bool) (count : Nat) (tasks : List DbTask)
  | itemBody (success : Bool) (message : Option String) (task : DbTask)
deriving DecidableEq, Repr

/-- Outcome of one /api/db handler: HTTP status, JSON body, table state
afterwards, SQL statements issued, telemetry emissions that reached the
sink. -/
structure DbHandlerOutcome where
  status : Nat
  body : DbBody
  state : DbState
  queries : List String
  events : List String
deriving Repr

/-- GET /api/db/tasks: 503 when unconfigured, otherwise list all rows;
pool errors are caught and surfaced as 500. -/
def getDbTasksHandler (svc : DatabaseService) (env : DbEnv) (st : DbState)
    (tel : Telemetry) : DbHandlerOutcome :=
  if svc.isConfigured = false then
    { status := 503
      body := .errBody "Database not configured"
        (some "DATABASE_URL environment variable is missing") none
      state := st, queries := [], events := [] }
  else
    let o := svc.getAllTasks env st
    match o.result with
    | .ok tasks =>
      { status := 200, body := .listBody true tasks.length tasks
        state := o.state, queries := o.queries
        events := tel.track "DatabaseTasksRetrieved" }
    | .error m =>
      { status := 500, body := .errBody "Failed to retrieve tasks" (some m) none
        state := o.state, queries := o.queries
        events := tel.track "exception" }

/-- GET /api/db/tasks/:id: 503 unconfigured, 404 when no row matches,
200 with the row otherwise, 500 on a pool error. -/
def getDbTaskByIdHandler (svc : DatabaseService) (env : DbEnv) (st : DbState)
    (_tel : Telemetry) (id : Nat) : DbHandlerOutcome :=
  if svc.isConfigured = false then
    { status := 503, body := .errBody "Database not configured" none none
      state := st, queries := [], events := [] }
  else
    let o := svc.getTaskById env st id
    match o.result with
    | .ok none =>
      { status := 404, body := .errBody "Task not found" none (some id)
        state := o.state, queries := o.queries, events := [] }
    | .ok (some t) =>
      { status := 200, body := .itemBody true none t
        state := o.state, queries := o.queries, events := [] }
    | .error m =>
      { status := 500, body := .errBody "Failed to retrieve task" (some m) none
        state := o.state, queries := o.queries, events := [] }

/-- POST /api/db/tasks: 503 unconfigured, then 400 when title is falsy
(absent or empty), then create; 201 with the created row, 500 on a pool
error. -/
def postDbTasksHandler (svc : DatabaseService) (env : DbEnv) (st : DbState)
    (tel : Telemetry) (now : Nat) (title description : Option String) :
    DbHandlerOutcome :=
  if svc.isConfigured = false then
    { status := 503, body := .errBody "Database not configured" none none
      state := st, queries := [], events := [] }
  else if jsTruthy title = false then
    { status := 400, body := .errBody "Validation error" (some "Title is required") none
      state := st, queries := [], events := [] }
  else
    let o := svc.createTask env st now (title.getD "") description
    match o.result with
    | .ok t =>
      { status := 201
        body := .itemBody true (some "Task created successfully") t
        state := o.state, queries := o.queries
        events := tel.track "TaskCreated" }
    | .error m =>
      { status := 500, body := .errBody "Failed to create task" (some m) none
        state := o.state, queries := o.queries
        events := tel.track "exception" }

/-- PUT /api/db/tasks/:id: 503 unconfigured, 400 falsy title, then update
with the request-body coercions: description defaults to the empty
string via the || idiom, and completed defaults to false when it is
undefined; 404 when no row matched,
200 with the updated row, 500 on a pool error. -/
def putDbTaskHandler (svc : DatabaseService) (env : DbEnv) (st : DbState)
    (tel : Telemetry) (now : Nat) (id : Nat)
    (title description : Option String) (completed : Option Bool) :
    DbHandlerOutcome :=
  if svc.isConfigured = false then
    { status := 503, body := .errBody "Database not configured" none none
      state := st, queries := [], events := [] }
  else if jsTruthy title = false then
    { status := 400, body := .errBody "Validation error" (some "Title is required") none
      state := st, queries := [], events := [] }
  else
    let o := svc.updateTask env st now id (title.getD "")
      (jsStrOr description "")
      (completed.getD false)
    match o.result with
    | .ok none =>
      { status := 404, body := .errBody "Task not found" none (some id)
        state := o.state, queries := o.queries, events := [] }
    | .ok (some t) =>
      { status := 200
        body := .itemBody true (some "Task updated successfully") t
        state := o.state, queries := o.queries
        events := tel.track "TaskUpdated" }
    | .error m =>
      { status := 500, body := .errBody "Failed to update task" (some m) none
        state := o.state, queries := o.queries, events := [] }

/-- DELETE /api/db/tasks/:id: 503 unconfigured, 404 when no row matched,
200 with the removed row, 500 on a pool error. -/
def deleteDbTaskHandler (svc : DatabaseService) (env : DbEnv) (st : DbState)
    (tel : Telemetry) (id : Nat) : DbHandlerOutcome :=
  if svc.isConfigured = false then
    { status := 503, body := .errBody "Database not configured" none none
      state := st, queries := [], events := [] }
  else
    let o := svc.deleteTask env st id
    match o.result with
    | .ok none =>
      { status := 404, body := .errBody "Task not found" none (some id)
        state := o.state, queries := o.queries, events := [] }
    | .ok (some t) =>
      { status := 200
        body := .itemBody true (some "Task deleted successfully") t
        state := o.state, queries := o.queries
        events := tel.track "TaskDeleted" }
    | .error m =>
      { status := 500, body := .errBody "Failed to delete task" (some m) none
        state := o.state, queries := o.queries, events := [] }

/-! ## Blob storage service (src/storageService.js) -/

structure StorageService where
  isConfigured : Bool
  containerUrl : String
deriving DecidableEq, Repr

/-- Constructor run of new StorageService(): a missing or empty
AZURE_STORAGE_CONNECTION_STRING
leaves the service unconfigured. -/
def StorageService.construct (connectionString : Option String)
    (containerUrl : String) : StorageService :=
  { isConfigured := jsTruthy connectionString, containerUrl := containerUrl }

/-- Blob-store environment: reachability of the backing service and the
message of the error it raises when unreachable. -/
structure StorageEnv where
  reachable : Bool
  failMsg : String
deriving DecidableEq, Repr

/-- A multipart file as multer hands it to the handler (req.file). -/
structure ReqFile where
  originalname : String
  mimetype : String
  size : Nat
deriving DecidableEq, Repr

/-- The metadata object uploadFile returns (lines 48-55). -/
structure UploadResult where
  fileName : String
  originalName : String
  url : String
  size : Nat
  contentType : String
  uploadedAt : Nat
deriving DecidableEq, Repr

/-- uploadFile (lines 24-60): unique blob name `<Date.now()>-<originalname>`,
write with the client-declared content type, return metadata. -/
def StorageService.uploadFile (svc : StorageService) (env : StorageEnv)
    (now : Nat) (file : ReqFile) : Except String UploadResult :=
  if svc.isConfigured = false then
    .error "Storage service not configured"
  else if env.reachable = false then
    .error env.failMsg
  else
    let blobName := toString now ++ "-" ++ file.originalname
    .ok
      { fileName := blobName
        originalName := file.originalname
        url := svc.containerUrl ++ "/" ++ blobName
        size := file.size
        contentType := file.mimetype
        uploadedAt := now }

/-- One stored blob as listBlobsFlat reports it. -/
structure BlobInfo where
  name : String
  size : Nat
  contentType : String
  createdOn : Nat
deriving DecidableEq, Repr

/-- One entry of the listFiles response (lines 71-79). -/
structure FileEntry where
  name : String
  size : Nat
  contentType : String
  createdOn : Nat
  url : String
deriving DecidableEq, Repr

/-- listFiles (lines 62-86): map each blob of the single fixed container
to its metadata plus a constructed URL. -/
def StorageService.listFiles (svc : StorageService) (env : StorageEnv)
    (container : List BlobInfo) : Except String (List FileEntry) :=
  if svc.isConfigured = false then
    .error "Storage service not configured"
  else if env.reachable = false then
    .error env.failMsg
  else
    .ok (container.map fun b =>
      { name := b.name
        size := b.size
        contentType := b.contentType
        createdOn := b.createdOn
        url := svc.containerUrl ++ "/" ++ b.name })

/-! ## Multer middleware and the upload pipeline (src/app.js lines 8-22, 121-168)

The multer instance uses memory storage, a 10 MiB fileSize limit and a
fileFilter restricted to five content types.  A fileFilter rejection is a
plain `new Error(message)`; exceeding the size limit aborts with
a MulterError with code LIMIT_FILE_SIZE.  Neither error object carries an HTTP
`status`/`statusCode` property, and the application registers no
error-handling middleware, so an error leaving the multer middleware is
handled by the framework default error handler, which responds with
`err.status ?? 500` and the error message — the route handler never runs. -/

structure JsError where
  message : String
  status : Option Nat
deriving DecidableEq, Repr

/-- The plain Error thrown by the fileFilter (line 19). -/
def fileFilterError : JsError :=
  ⟨"Invalid file type. Only JPEG, PNG, GIF, PDF, and TXT files are allowed.",
    none⟩

/-- MulterError with code LIMIT_FILE_SIZE. -/
def limitFileSizeError : JsError := ⟨"File too large", none⟩

/-- The framework default error handler status: the error object status
property when set, 500 otherwise. -/
def expressDefaultErrorStatus (e : JsError) : Nat := e.status.getD 500

def allowedTypes : List String :=
  ["image/jpeg", "image/png", "image/gif", "application/pdf", "text/plain"]

def fileSizeLimit : Nat := 10 * 1024 * 1024

/-- The request as it reaches the multer middleware: the multipart field
named file, when one was sent. -/
structure UploadRequest where
  file : Option ReqFile
deriving DecidableEq, Repr

inductive MulterOutcome where
  | accepted (file : Option ReqFile)
  | rejected (e : JsError)
deriving DecidableEq, Repr

/-- Middleware upload.single for the multipart field named file: no file
field passes through with req.file
undefined; a file is first vetted by the fileFilter on its declared type,
then streamed subject to the size limit. -/
def multerSingle (req : UploadRequest) : MulterOutcome :=
  match req.file with
  | none => .accepted none
  | some f =>
    if f.mimetype ∈ allowedTypes then
      if fileSizeLimit < f.size then .rejected limitFileSizeError
      else .accepted (some f)
    else .rejected fileFilterError

inductive UploadBody where
  | frameworkError (message : String)
  | jsonError (error : String) (message : Option String)
  | jsonSuccess (message : String) (file : UploadResult)
deriving DecidableEq, Repr

/-- Outcome of POST /api/upload: HTTP status, body, the number of
blob-store upload calls made, telemetry emissions that reached the sink.
`frameworkError` is the default-error-handler response that a multer
rejection produces; the JSON bodies come from the route handler. -/
structure UploadOutcome where
  status : Nat
  body : UploadBody
  storeCalls : Nat
  events : List String
deriving DecidableEq, Repr

/-- POST /api/upload (lines 121-168) behind the multer single-file
middleware. -/
def postUploadHandler (storage : StorageService) (env : StorageEnv)
    (tel : Telemetry) (now : Nat) (req : UploadRequest) : UploadOutcome :=
  match multerSingle req with
  | .rejected e =>
    { status := expressDefaultErrorStatus e
      body := .frameworkError e.message
      storeCalls := 0, events := [] }
  | .accepted none =>
    { status := 400, body := .jsonError "No file uploaded" none
      storeCalls := 0, events := [] }
  | .accepted (some f) =>
    if storage.isConfigured = false then
      { status := 503
        body := .jsonError "Storage service not configured"
          (some "Azure Storage connection string is missing")
        storeCalls := 0, events := [] }
    else
      match storage.uploadFile env now f with
      | .ok r =>
        { status := 200
          body := .jsonSuccess "File uploaded successfully" r
          storeCalls := 1, events := tel.track "FileUploaded" }
      | .error m =>
        { status := 500
          body := .jsonError "Failed to upload file" (some m)
          storeCalls := 1, events := tel.track "exception" }

inductive FilesBody where
  | errBody (error : String) (message : Option String)
  | listBody (success : Bool) (count : Nat) (files : List FileEntry)
deriving DecidableEq, Repr

structure FilesOutcome where
  status : Nat
  body : FilesBody
  events : List String
deriving DecidableEq, Repr

/-- GET /api/files (lines 171-194): 503 unconfigured, 500 on a storage
error, 200 with the listing otherwise; no telemetry call site. -/
def getFilesHandler (storage : StorageService) (env : StorageEnv)
    (container : List BlobInfo) : FilesOutcome :=
  if storage.isConfigured = false then
    { status := 503, body := .errBody "Storage service not configured" none
      events := [] }
  else
    match storage.listFiles env container with
    | .ok files =>
      { status := 200, body := .listBody true files.length files, events := [] }
    | .error m =>
      { status := 500, body := .errBody "Failed to list files" (some m)
        events := [] }

/-! ## Health and root endpoints (src/app.js lines 40-60, 197-211) -/

structure HealthBody where
  status : String
  timestamp : Nat
  environment : String
  version : String
  monitoring : String
  storage : String
deriving DecidableEq, Repr

/-- GET /api/health. -/
def healthHandler (cfg : AppConfig) (tel : Telemetry)
    (storage : StorageService) (now : Nat) : MemOutcome HealthBody :=
  { status := 200
    body :=
      { status := "healthy"
        timestamp := now
        environment := cfg.environment
        version := cfg.apiVersion
        monitoring := if tel.configured then "enabled" else "disabled"
        storage := if storage.isConfigured then "enabled" else "disabled" }
    events := tel.track "HealthCheckCalled" }

structure RootBody where
  message : String
  version : String
  environment : String
  endpoints : List String
  monitoring : String
  storage : String
deriving DecidableEq, Repr

/-- GET /. -/
def rootHandler (cfg : AppConfig) (tel : Telemetry)
    (storage : StorageService) : MemOutcome RootBody :=
  { status := 200
    body :=
      { message := "Azure Node.js API"
        version := cfg.apiVersion
        environment := cfg.environment
        endpoints := ["/api/health", "/api/tasks", "/api/upload (POST)", "/api/files"]
        monitoring := if tel.configured then "Application Insights enabled"
          else "No monitoring"
        storage := if storage.isConfigured then "Azure Blob Storage enabled"
          else "Storage not configured" }
    events := [] }

/-! ## Helper lemmas -/

/-- A conditional rewrite maps a list to itself when no element matches. -/
theorem map_ite_of_no_match {α : Type} (p : α → Prop) [DecidablePred p]
    (f : α → α) {l : List α} (h : ∀ x ∈ l, ¬ p x) :
    (l.map fun x => if p x then f x else x) = l := by
  induction l with
  | nil => rfl
  | cons a as ih =>
    have ha := h a (List.mem_cons_self a as)
    simp only [List.map_cons, if_neg ha, List.cons.injEq, true_and]
    exact ih fun x hx => h x (List.mem_cons_of_mem a hx)

/-- After filtering matches out, find? no longer finds one. -/
theorem find?_filter_out_eq_none {α : Type} (p : α → Bool) (l : List α) :
    ((l.filter fun x => !p x).find? p) = none := by
  rw [List.find?_eq_none]
  intro x hx
  have := (List.mem_filter.mp hx).2
  simp at this
  simp [this]

/-! ## Claims -/

/-- C1: with DATABASE_URL absent at process start, the DatabaseService
constructor creates no pool and attempts no connection yet returns
normally, process startup completes without touching the database, and
every one of the five /api/db/... handlers answers 503 with a
"Database not configured" error body, issues no SQL, and leaves the
table state untouched — for every request, table state, backing-store
environment, and telemetry configuration. -/
theorem db_unconfigured_all_endpoints_503 (env : DbEnv) (st : DbState)
    (tel : Telemetry) (now id : Nat) (title description : Option String)
    (completed : Option Bool) :
    (DatabaseService.construct none).service.isConfigured = false ∧
    (DatabaseService.construct none).connectionAttempted = false ∧
    (DatabaseService.construct none).returnedNormally = true ∧
    (appStartup (DatabaseService.construct none).service env st).started = true ∧
    (appStartup (DatabaseService.construct none).service env st).queries = [] ∧
    (getDbTasksHandler (DatabaseService.construct none).service env st tel).status = 503 ∧
    (getDbTasksHandler (DatabaseService.construct none).service env st tel).body =
      .errBody "Database not configured"
        (some "DATABASE_URL environment variable is missing") none ∧
    (getDbTasksHandler (DatabaseService.construct none).service env st tel).queries = [] ∧
    (getDbTasksHandler (DatabaseService.construct none).service env st tel).state = st ∧
    (getDbTaskByIdHandler (DatabaseService.construct none).service env st tel id).status = 503 ∧
    (getDbTaskByIdHandler (DatabaseService.construct none).service env st tel id).body =
      .errBody "Database not configured" none none ∧
    (getDbTaskByIdHandler (DatabaseService.construct none).service env st tel id).queries = [] ∧
    (getDbTaskByIdHandler (DatabaseService.construct none).service env st tel id).state = st ∧
    (postDbTasksHandler (DatabaseService.construct none).service env st tel now title description).status = 503 ∧
    (postDbTasksHandler (DatabaseService.construct none).service env st tel now title description).body =
      .errBody "Database not configured" none none ∧
    (postDbTasksHandler (DatabaseService.construct none).service env st tel now title description).queries = [] ∧
    (postDbTasksHandler (DatabaseService.construct none).service env st tel now title description).state = st ∧
    (putDbTaskHandler (DatabaseService.construct none).service env st tel now id title description completed).status = 503 ∧
    (putDbTaskHandler (DatabaseService.construct none).service env st tel now id title description completed).body =
      .errBody "Database not configured" none none ∧
    (putDbTaskHandler (DatabaseService.construct none).service env st tel now id title description completed).queries = [] ∧
    (putDbTaskHandler (DatabaseService.construct none).service env st tel now id title description completed).state = st ∧
    (deleteDbTaskHandler (DatabaseService.construct none).service env st tel id).status = 503 ∧
    (deleteDbTaskHandler (DatabaseService.construct none).service env st tel id).body =
      .errBody "Database not configured" none none ∧
    (deleteDbTaskHandler (DatabaseService.construct none).service env st tel id).queries = [] ∧
    (deleteDbTaskHandler (DatabaseService.construct none).service env st tel id).state = st := by
  refine ⟨rfl, rfl, rfl, ?_, ?_, ?_⟩ <;>
    simp [appStartup, getDbTasksHandler, getDbTaskByIdHandler,
      postDbTasksHandler, putDbTaskHandler, deleteDbTaskHandler,
      DatabaseService.construct, jsTruthy]

/-- C2 counterexample: a POST /api/upload of a 4-byte application/zip
file against a configured, reachable blob store is rejected without any
store call, but with HTTP status 500 — the fileFilter error reaches the
framework default error handler, since the application registers no
error-handling middleware — not with the claimed 400. -/
theorem upload_zip_rejected_with_500_cex :
    (postUploadHandler ⟨true, "https://acct/learning-azure"⟩ ⟨true, "boom"⟩
        ⟨true, true⟩ 0 ⟨some ⟨"a.zip", "application/zip", 4⟩⟩).status = 500 ∧
    ¬ (postUploadHandler ⟨true, "https://acct/learning-azure"⟩ ⟨true, "boom"⟩
        ⟨true, true⟩ 0 ⟨some ⟨"a.zip", "application/zip", 4⟩⟩).status = 400 ∧
    (postUploadHandler ⟨true, "https://acct/learning-azure"⟩ ⟨true, "boom"⟩
        ⟨true, true⟩ 0 ⟨some ⟨"a.zip", "application/zip", 4⟩⟩).storeCalls = 0 := by
  decide

/-- C2 amended: a POST /api/upload whose declared content type is outside
the allow-list or whose payload exceeds 10 MiB is rejected before any
blob-store call (no object is stored), with a framework default-error
response — status 500, since neither error carries an HTTP status and no
error-handling middleware is installed — whose body is distinct from the
storage-failure and success JSON bodies of the route handler. -/
theorem upload_invalid_rejected_before_store (storage : StorageService)
    (env : StorageEnv) (tel : Telemetry) (now : Nat) (f : ReqFile)
    (h : f.mimetype ∉ allowedTypes ∨ fileSizeLimit < f.size) :
    (postUploadHandler storage env tel now ⟨some f⟩).storeCalls = 0 ∧
    (postUploadHandler storage env tel now ⟨some f⟩).status = 500 ∧
    (∃ m, (postUploadHandler storage env tel now ⟨some f⟩).body =
      .frameworkError m) ∧
    (∀ e msg, (postUploadHandler storage env tel now ⟨some f⟩).body ≠
      .jsonError e msg) ∧
    (∀ m r, (postUploadHandler storage env tel now ⟨some f⟩).body ≠
      .jsonSuccess m r) := by
  by_cases hm : f.mimetype ∈ allowedTypes
  · rcases h with h | h
    · exact absurd hm h
    · simp [postUploadHandler, multerSingle, hm, if_pos h,
        expressDefaultErrorStatus, limitFileSizeError]
  · simp [postUploadHandler, multerSingle, hm,
      expressDefaultErrorStatus, fileFilterError]

/-- C2 amended, witness: an 11 MiB text/plain upload is rejected with 500
and no store call. -/
theorem upload_invalid_rejected_before_store_witness :
    (postUploadHandler ⟨true, "https://acct/learning-azure"⟩ ⟨true, "boom"⟩
        ⟨true, true⟩ 0 ⟨some ⟨"big.txt", "text/plain", 11534336⟩⟩).storeCalls = 0 ∧
    (postUploadHandler ⟨true, "https://acct/learning-azure"⟩ ⟨true, "boom"⟩
        ⟨true, true⟩ 0 ⟨some ⟨"big.txt", "text/plain", 11534336⟩⟩).status = 500 ∧
    (∃ m, (postUploadHandler ⟨true, "https://acct/learning-azure"⟩ ⟨true, "boom"⟩
        ⟨true, true⟩ 0 ⟨some ⟨"big.txt", "text/plain", 11534336⟩⟩).body =
      .frameworkError m) ∧
    (∀ e msg, (postUploadHandler ⟨true, "https://acct/learning-azure"⟩ ⟨true, "boom"⟩
        ⟨true, true⟩ 0 ⟨some ⟨"big.txt", "text/plain", 11534336⟩⟩).body ≠
      .jsonError e msg) ∧
    (∀ m r, (postUploadHandler ⟨true, "https://acct/learning-azure"⟩ ⟨true, "boom"⟩
        ⟨true, true⟩ 0 ⟨some ⟨"big.txt", "text/plain", 11534336⟩⟩).body ≠
      .jsonSuccess m r) :=
  upload_invalid_rejected_before_store ⟨true, "https://acct/learning-azure"⟩
    ⟨true, "boom"⟩ ⟨true, true⟩ 0 ⟨"big.txt", "text/plain", 11534336⟩
    (Or.inr (by decide))

/-- C3: on a configured, reachable store in a well-formed state, a
successful create(title, description) returns a record with the supplied
title, the supplied (or defaulted) description, completed = false, the
fresh SERIAL id, and both timestamps set to the insertion clock; getById
on that id with no intervening operation returns exactly that record. -/
theorem createTask_then_getTaskById (svc : DatabaseService) (env : DbEnv)
    (st : DbState) (now : Nat) (title : String) (description : Option String)
    (hcfg : svc.isConfigured = true) (hnet : env.reachable = true)
    (hlen : title.length ≤ 255) (hwf : st.WF) :
    (svc.createTask env st now title description).result =
      .ok { id := st.nextId, title := title,
            description := description.getD "", completed := false,
            created_at := now, updated_at := now } ∧
    (svc.getTaskById env (svc.createTask env st now title description).state
        st.nextId).result =
      .ok (some
        { id := st.nextId, title := title,
          description := description.getD "", completed := false,
          created_at := now, updated_at := now }) := by
  have hn : ¬ (255 < title.length) := by omega
  constructor
  · simp [DatabaseService.createTask, hcfg, hnet, hn]
  · simp only [DatabaseService.createTask, DatabaseService.getTaskById,
      hcfg, hnet, hn, if_false, if_neg (by simp : ¬(true = false)),
      ite_false, ite_true]
    rw [List.find?_append]
    have hnone : st.rows.find? (fun t => t.id == st.nextId) = none := by
      rw [List.find?_eq_none]
      intro x hx
      simp only [beq_iff_eq]
      exact Nat.ne_of_lt (hwf.1 x hx)
    simp [hnone]

/-- C3 witness: creating ("groceries", "milk") in an empty configured
store at clock 5 and reading id 1 back returns the identical record. -/
theorem createTask_then_getTaskById_witness :
    ((DatabaseService.mk true true).createTask ⟨true, "down"⟩ ⟨[], 1⟩ 5
        "groceries" (some "milk")).result =
      .ok { id := 1, title := "groceries", description := "milk",
            completed := false, created_at := 5, updated_at := 5 } ∧
    ((DatabaseService.mk true true).getTaskById ⟨true, "down"⟩
        ((DatabaseService.mk true true).createTask ⟨true, "down"⟩ ⟨[], 1⟩ 5
          "groceries" (some "milk")).state 1).result =
      .ok (some
        { id := 1, title := "groceries", description := "milk",
          completed := false, created_at := 5, updated_at := 5 }) :=
  createTask_then_getTaskById (DatabaseService.mk true true) ⟨true, "down"⟩
    ⟨[], 1⟩ 5 "groceries" (some "milk") rfl rfl (by decide)
    ⟨by simp, List.Pairwise.nil⟩

/-- C4: a successful update on an existing task rewrites every mutable
field to the supplied value — no prior title/description/completed
survives — refreshes updated_at to the update clock, preserves id and
created_at, stores the rewritten row (leaving rows with other ids in
place), and via PUT /api/db/tasks/:id an omitted description becomes ""
and an omitted completed becomes false. -/
theorem updateTask_replaces_all_fields (svc : DatabaseService) (env : DbEnv)
    (st : DbState) (tel : Telemetry) (now id : Nat)
    (title description : String) (completed : Bool) (t₀ : DbTask)
    (hcfg : svc.isConfigured = true) (hnet : env.reachable = true)
    (hlen : title.length ≤ 255) (htitle : title ≠ "")
    (hfind : st.rows.find? (fun t => t.id == id) = some t₀) :
    (svc.updateTask env st now id title description completed).result =
      .ok (some
        { id := t₀.id, title := title, description := description,
          completed := completed, created_at := t₀.created_at,
          updated_at := now }) ∧
    ({ id := t₀.id, title := title, description := description,
       completed := completed, created_at := t₀.created_at,
       updated_at := now } : DbTask) ∈
      (svc.updateTask env st now id title description completed).state.rows ∧
    (∀ u ∈ st.rows, (u.id == id) = false →
      u ∈ (svc.updateTask env st now id title description completed).state.rows) ∧
    (putDbTaskHandler svc env st tel now id (some title) none none).status = 200 ∧
    (putDbTaskHandler svc env st tel now id (some title) none none).body =
      .itemBody true (some "Task updated successfully")
        { id := t₀.id, title := title, description := "", completed := false,
          created_at := t₀.created_at, updated_at := now } := by
  have hn : ¬ (255 < title.length) := by omega
  have hmem := List.mem_of_find?_eq_some hfind
  have hid' := List.find?_some hfind
  have hid : (t₀.id == id) = true := by simpa using hid'
  obtain ⟨tid, ttitle, tdesc, tcomp, tca, tua⟩ := t₀
  have hstate : (svc.updateTask env st now id title description completed).state.rows
      = st.rows.map fun t => if t.id == id then
          { t with title := title, description := description,
                   completed := completed, updated_at := now }
        else t := by
    simp [DatabaseService.updateTask, hcfg, hnet, hn]
  refine ⟨?_, ?_, ?_, ?_, ?_⟩
  · simp [DatabaseService.updateTask, hcfg, hnet, hn, hfind]
  · rw [hstate]
    refine List.mem_map.mpr ⟨⟨tid, ttitle, tdesc, tcomp, tca, tua⟩, hmem, ?_⟩
    simp [hid]
  · intro u hu hneq
    rw [hstate]
    exact List.mem_map.mpr ⟨u, hu, by simp [hneq]⟩
  · simp [putDbTaskHandler, jsTruthy, htitle, jsStrOr,
      DatabaseService.updateTask, hcfg, hnet, hn, hfind]
  · simp [putDbTaskHandler, jsTruthy, htitle, jsStrOr,
      DatabaseService.updateTask, hcfg, hnet, hn, hfind]

/-- C4 witness: updating task 1 of a one-row store replaces title,
description and completed wholesale, refreshes updated_at to 9, and the
PUT route with omitted description/completed writes "" and false. -/
theorem updateTask_replaces_all_fields_witness :
    ((DatabaseService.mk true true).updateTask ⟨true, "down"⟩
        ⟨[⟨1, "old", "d", true, 2, 3⟩], 2⟩ 9 1 "new" "nd" true).result =
      .ok (some
        { id := 1, title := "new", description := "nd",
          completed := true, created_at := 2, updated_at := 9 }) ∧
    ({ id := 1, title := "new", description := "nd", completed := true,
       created_at := 2, updated_at := 9 } : DbTask) ∈
      ((DatabaseService.mk true true).updateTask ⟨true, "down"⟩
        ⟨[⟨1, "old", "d", true, 2, 3⟩], 2⟩ 9 1 "new" "nd" true).state.rows ∧
    (∀ u ∈ [(⟨1, "old", "d", true, 2, 3⟩ : DbTask)], (u.id == 1) = false →
      u ∈ ((DatabaseService.mk true true).updateTask ⟨true, "down"⟩
        ⟨[⟨1, "old", "d", true, 2, 3⟩], 2⟩ 9 1 "new" "nd" true).state.rows) ∧
    (putDbTaskHandler (DatabaseService.mk true true) ⟨true, "down"⟩
        ⟨[⟨1, "old", "d", true, 2, 3⟩], 2⟩ ⟨true, true⟩ 9 1
        (some "new") none none).status = 200 ∧
    (putDbTaskHandler (DatabaseService.mk true true) ⟨true, "down"⟩
        ⟨[⟨1, "old", "d", true, 2, 3⟩], 2⟩ ⟨true, true⟩ 9 1
        (some "new") none none).body =
      .itemBody true (some "Task updated successfully")
        { id := 1, title := "new", description := "", completed := false,
          created_at := 2, updated_at := 9 } :=
  updateTask_replaces_all_fields (DatabaseService.mk true true) ⟨true, "down"⟩
    ⟨[⟨1, "old", "d", true, 2, 3⟩], 2⟩ ⟨true, true⟩ 9 1 "new" "nd" true
    ⟨1, "old", "d", true, 2, 3⟩ rfl rfl (by decide) (by decide) (by decide)

/-- C5: updating an id that no stored task carries returns the not-found
signal (rows[0] undefined at the store level, 404 with a "Task not found"
body via PUT /api/db/tasks/:id) and leaves the table state exactly as it
was — no task is created or modified. -/
theorem update_missing_id_404_unchanged (svc : DatabaseService) (env : DbEnv)
    (st : DbState) (tel : Telemetry) (now id : Nat)
    (title description : String) (completed : Bool)
    (bodyDescription : Option String) (bodyCompleted : Option Bool)
    (hcfg : svc.isConfigured = true) (hnet : env.reachable = true)
    (htitle : title ≠ "") (hlen : title.length ≤ 255)
    (habsent : ∀ t ∈ st.rows, (t.id == id) = false) :
    (svc.updateTask env st now id title description completed).result = .ok none ∧
    (svc.updateTask env st now id title description completed).state = st ∧
    (putDbTaskHandler svc env st tel now id (some title) bodyDescription
      bodyCompleted).status = 404 ∧
    (putDbTaskHandler svc env st tel now id (some title) bodyDescription
      bodyCompleted).body = .errBody "Task not found" none (some id) ∧
    (putDbTaskHandler svc env st tel now id (some title) bodyDescription
      bodyCompleted).state = st := by
  have hn : ¬ (255 < title.length) := by omega
  have hfind : st.rows.find? (fun t => t.id == id) = none :=
    List.find?_eq_none.mpr fun x hx => by simp [habsent x hx]
  have hmap : ∀ f : DbTask → DbTask,
      (st.rows.map fun t => if t.id = id then f t else t) = st.rows :=
    fun f => map_ite_of_no_match (fun t => t.id = id) f
      fun x hx => by simpa using habsent x hx
  obtain ⟨rows, nextId⟩ := st
  refine ⟨?_, ?_, ?_, ?_, ?_⟩
  · simp [DatabaseService.updateTask, hcfg, hnet, hn, hfind]
  · simp only [DatabaseService.updateTask, hcfg, hnet, hn]
    simp
    exact hmap _
  · simp [putDbTaskHandler, jsTruthy, htitle,
      DatabaseService.updateTask, hcfg, hnet, hn, hfind]
  · simp [putDbTaskHandler, jsTruthy, htitle,
      DatabaseService.updateTask, hcfg, hnet, hn, hfind]
  · simp [putDbTaskHandler, jsTruthy, htitle,
      DatabaseService.updateTask, hcfg, hnet, hn, hfind]
    exact hmap _

/-- C5 witness: updating id 7 of a store holding only id 1 yields the
not-found signal, 404 via the route, and an unchanged table. -/
theorem update_missing_id_404_unchanged_witness :
    ((DatabaseService.mk true true).updateTask ⟨true, "down"⟩
        ⟨[⟨1, "a", "", false, 0, 0⟩], 2⟩ 9 7 "new" "x" true).result = .ok none ∧
    ((DatabaseService.mk true true).updateTask ⟨true, "down"⟩
        ⟨[⟨1, "a", "", false, 0, 0⟩], 2⟩ 9 7 "new" "x" true).state =
      ⟨[⟨1, "a", "", false, 0, 0⟩], 2⟩ ∧
    (putDbTaskHandler (DatabaseService.mk true true) ⟨true, "down"⟩
        ⟨[⟨1, "a", "", false, 0, 0⟩], 2⟩ ⟨true, true⟩ 9 7 (some "new")
        none none).status = 404 ∧
    (putDbTaskHandler (DatabaseService.mk true true) ⟨true, "down"⟩
        ⟨[⟨1, "a", "", false, 0, 0⟩], 2⟩ ⟨true, true⟩ 9 7 (some "new")
        none none).body = .errBody "Task not found" none (some 7) ∧
    (putDbTaskHandler (DatabaseService.mk true true) ⟨true, "down"⟩
        ⟨[⟨1, "a", "", false, 0, 0⟩], 2⟩ ⟨true, true⟩ 9 7 (some "new")
        none none).state = ⟨[⟨1, "a", "", false, 0, 0⟩], 2⟩ :=
  update_missing_id_404_unchanged (DatabaseService.mk true true) ⟨true, "down"⟩
    ⟨[⟨1, "a", "", false, 0, 0⟩], 2⟩ ⟨true, true⟩ 9 7 "new" "x" true none none
    rfl rfl (by decide) (by decide) (by decide)

/-- C6: delete is idempotent in effect — after a successful delete of an
id, a second delete of the same id returns the not-found signal (404 with
a "Task not found" body via DELETE /api/db/tasks/:id) and removes
nothing further. -/
theorem deleteTask_idempotent (svc : DatabaseService) (env : DbEnv)
    (st : DbState) (tel : Telemetry) (id : Nat) (t : DbTask)
    (hcfg : svc.isConfigured = true) (hnet : env.reachable = true)
    (hfst : (svc.deleteTask env st id).result = .ok (some t)) :
    (svc.deleteTask env (svc.deleteTask env st id).state id).result = .ok none ∧
    (svc.deleteTask env (svc.deleteTask env st id).state id).state =
      (svc.deleteTask env st id).state ∧
    (deleteDbTaskHandler svc env (svc.deleteTask env st id).state tel id).status
      = 404 ∧
    (deleteDbTaskHandler svc env (svc.deleteTask env st id).state tel id).body
      = .errBody "Task not found" none (some id) := by
  obtain ⟨rows, nextId⟩ := st
  have hfind2 : (rows.filter fun t => t.id != id).find? (fun t => t.id == id)
      = none := by
    rw [List.find?_eq_none]
    intro x hx
    have hne := (List.mem_filter.mp hx).2
    simp only [bne_iff_ne] at hne
    simp [hne]
  have hself : (rows.filter fun t => t.id != id).filter (fun t => t.id != id)
      = rows.filter fun t => t.id != id :=
    List.filter_eq_self.mpr fun u hu => (List.mem_filter.mp hu).2
  refine ⟨?_, ?_, ?_, ?_⟩ <;>
    simp [DatabaseService.deleteTask, deleteDbTaskHandler, hcfg, hnet,
      hfind2, hself]

/-- C6 witness: deleting id 1 from a one-row store succeeds; deleting id 1
again returns not-found, 404 via the route, and changes nothing. -/
theorem deleteTask_idempotent_witness :
    ((DatabaseService.mk true true).deleteTask ⟨true, "down"⟩
        (((DatabaseService.mk true true).deleteTask ⟨true, "down"⟩
          ⟨[⟨1, "a", "", false, 0, 0⟩], 2⟩ 1).state) 1).result = .ok none ∧
    ((DatabaseService.mk true true).deleteTask ⟨true, "down"⟩
        (((DatabaseService.mk true true).deleteTask ⟨true, "down"⟩
          ⟨[⟨1, "a", "", false, 0, 0⟩], 2⟩ 1).state) 1).state =
      ((DatabaseService.mk true true).deleteTask ⟨true, "down"⟩
        ⟨[⟨1, "a", "", false, 0, 0⟩], 2⟩ 1).state ∧
    (deleteDbTaskHandler (DatabaseService.mk true true) ⟨true, "down"⟩
        (((DatabaseService.mk true true).deleteTask ⟨true, "down"⟩
          ⟨[⟨1, "a", "", false, 0, 0⟩], 2⟩ 1).state) ⟨true, true⟩ 1).status
      = 404 ∧
    (deleteDbTaskHandler (DatabaseService.mk true true) ⟨true, "down"⟩
        (((DatabaseService.mk true true).deleteTask ⟨true, "down"⟩
          ⟨[⟨1, "a", "", false, 0, 0⟩], 2⟩ 1).state) ⟨true, true⟩ 1).body
      = .errBody "Task not found" none (some 1) :=
  deleteTask_idempotent (DatabaseService.mk true true) ⟨true, "down"⟩
    ⟨[⟨1, "a", "", false, 0, 0⟩], 2⟩ ⟨true, true⟩ 1 ⟨1, "a", "", false, 0, 0⟩
    rfl rfl rfl

/-- slice(0, e) with a non-negative end index is take. -/
theorem jsSliceTo_of_nonneg {α : Type} (l : List α) (e : Int) (h : 0 ≤ e) :
    jsSliceTo l e = l.take e.toNat := by
  unfold jsSliceTo
  have hneg : ¬ (e < 0) := by omega
  simp only [hneg, if_false]
  by_cases hc : e ≤ (l.length : Int)
  · rw [min_eq_left hc]
  · rw [min_eq_right (le_of_not_le hc), Int.toNat_natCast, List.take_length,
      List.take_of_length_le (by omega)]

/-- C7: for any environment whose parsed task limit is non-negative,
GET /api/tasks answers 200 with exactly the first maxTasks entries of the
hardcoded 5-task sequence (a take of the full sequence), reports total
equal to the number of tasks returned and maxAllowed equal to the limit;
the default limit is 10, and with MAX_TASKS=2 the body holds exactly the
first two hardcoded tasks. -/
theorem get_tasks_truncates_to_max_tasks
    (apiVersionEnv environmentEnv maxTasksEnv : Option String) (tel : Telemetry)
    (h : 0 ≤ (AppConfig.ofEnv apiVersionEnv environmentEnv maxTasksEnv).maxTasks) :
    (getTasksHandler (AppConfig.ofEnv apiVersionEnv environmentEnv maxTasksEnv)
      tel).status = 200 ∧
    (getTasksHandler (AppConfig.ofEnv apiVersionEnv environmentEnv maxTasksEnv)
      tel).body.tasks = allTasks.take
        (AppConfig.ofEnv apiVersionEnv environmentEnv maxTasksEnv).maxTasks.toNat ∧
    (getTasksHandler (AppConfig.ofEnv apiVersionEnv environmentEnv maxTasksEnv)
      tel).body.total = (getTasksHandler
        (AppConfig.ofEnv apiVersionEnv environmentEnv maxTasksEnv) tel).body.tasks.length ∧
    (getTasksHandler (AppConfig.ofEnv apiVersionEnv environmentEnv maxTasksEnv)
      tel).body.maxAllowed =
        (AppConfig.ofEnv apiVersionEnv environmentEnv maxTasksEnv).maxTasks ∧
    (AppConfig.ofEnv none none none).maxTasks = 10 ∧
    (getTasksHandler (AppConfig.ofEnv none none (some "2")) tel).body.tasks =
      [⟨1, "Learn Azure App Service", true⟩, ⟨2, "Deploy to Azure", true⟩] ∧
    (getTasksHandler (AppConfig.ofEnv none none (some "2")) tel).body.total = 2 := by
  refine ⟨rfl, ?_, rfl, rfl, rfl, rfl, rfl⟩
  simp only [getTasksHandler]
  exact jsSliceTo_of_nonneg allTasks _ h

/-- C7 witness: with MAX_TASKS=3 (non-negative) the body is the first
three hardcoded tasks and total is its length. -/
theorem get_tasks_truncates_to_max_tasks_witness :
    (getTasksHandler (AppConfig.ofEnv none none (some "3")) ⟨true, true⟩).status
      = 200 ∧
    (getTasksHandler (AppConfig.ofEnv none none (some "3")) ⟨true, true⟩).body.tasks
      = allTasks.take (AppConfig.ofEnv none none (some "3")).maxTasks.toNat ∧
    (getTasksHandler (AppConfig.ofEnv none none (some "3")) ⟨true, true⟩).body.total
      = (getTasksHandler (AppConfig.ofEnv none none (some "3"))
          ⟨true, true⟩).body.tasks.length ∧
    (getTasksHandler (AppConfig.ofEnv none none (some "3")) ⟨true, true⟩).body.maxAllowed
      = (AppConfig.ofEnv none none (some "3")).maxTasks ∧
    (AppConfig.ofEnv none none none).maxTasks = 10 ∧
    (getTasksHandler (AppConfig.ofEnv none none (some "2")) ⟨true, true⟩).body.tasks =
      [⟨1, "Learn Azure App Service", true⟩, ⟨2, "Deploy to Azure", true⟩] ∧
    (getTasksHandler (AppConfig.ofEnv none none (some "2")) ⟨true, true⟩).body.total
      = 2 :=
  get_tasks_truncates_to_max_tasks none none (some "3") ⟨true, true⟩ (by decide)

/-- C8: for every path parameter parsing as an integer n, GET
/api/tasks/:id answers 200 with the synthesized record (id n,
title "Task n", completed false); it never consults the hardcoded list:
that list marks id 1 completed, yet the handler reports id 1 as not
completed. -/
theorem get_task_by_id_synthesizes (tel : Telemetry) (s : String) (n : Int)
    (h : parseIntJS (some s) = some n) :
    (getTaskByIdHandler tel s).status = 200 ∧
    (getTaskByIdHandler tel s).body =
      { id := some n, title := "Task " ++ toString n, completed := false } ∧
    (allTasks.find? fun t => t.id == 1) =
      some ⟨1, "Learn Azure App Service", true⟩ ∧
    (getTaskByIdHandler tel "1").body =
      { id := some 1, title := "Task 1", completed := false } := by
  refine ⟨rfl, ?_, rfl, rfl⟩
  simp [getTaskByIdHandler, h, jsNumToString]

/-- C8 witness: requesting id 41 yields 200 and the synthesized record. -/
theorem get_task_by_id_synthesizes_witness :
    (getTaskByIdHandler ⟨true, true⟩ "41").status = 200 ∧
    (getTaskByIdHandler ⟨true, true⟩ "41").body =
      { id := some 41, title := "Task " ++ toString (41 : Int),
        completed := false } ∧
    (allTasks.find? fun t => t.id == 1) =
      some ⟨1, "Learn Azure App Service", true⟩ ∧
    (getTaskByIdHandler ⟨true, true⟩ "1").body =
      { id := some 1, title := "Task 1", completed := false } :=
  get_task_by_id_synthesizes ⟨true, true⟩ "41" 41 rfl

/-- C10: the task limit falls back to the default 10 when MAX_TASKS is
unset, not parseable as an integer, or parses to 0; in particular with
MAX_TASKS=0 GET /api/tasks returns all 5 hardcoded tasks, not 0. -/
theorem max_tasks_fallback (tel : Telemetry) (s : String)
    (h : parseIntJS (some s) = none) :
    (AppConfig.ofEnv none none none).maxTasks = 10 ∧
    (AppConfig.ofEnv none none (some s)).maxTasks = 10 ∧
    (AppConfig.ofEnv none none (some "0")).maxTasks = 10 ∧
    (getTasksHandler (AppConfig.ofEnv none none (some "0")) tel).body.tasks
      = allTasks ∧
    (getTasksHandler (AppConfig.ofEnv none none (some "0")) tel).body.total
      = 5 ∧
    allTasks.length = 5 := by
  refine ⟨rfl, ?_, rfl, rfl, rfl, rfl⟩
  simp [AppConfig.ofEnv, h, jsOrDefault]

/-- C10 witness: MAX_TASKS=abc is not parseable and falls back to 10. -/
theorem max_tasks_fallback_witness :
    (AppConfig.ofEnv none none none).maxTasks = 10 ∧
    (AppConfig.ofEnv none none (some "abc")).maxTasks = 10 ∧
    (AppConfig.ofEnv none none (some "0")).maxTasks = 10 ∧
    (getTasksHandler (AppConfig.ofEnv none none (some "0")) ⟨true, true⟩).body.tasks
      = allTasks ∧
    (getTasksHandler (AppConfig.ofEnv none none (some "0")) ⟨true, true⟩).body.total
      = 5 ∧
    allTasks.length = 5 :=
  max_tasks_fallback ⟨true, true⟩ "abc" rfl

/-- C9: telemetry is best-effort and non-interfering.  For any two
telemetry environments — configured or not, sink failing or not — every
endpoint produces the same HTTP status and the same response body (and,
for the database endpoints, the same table state and SQL), except for the
explicit monitoring capability flag of /api/health and of the root
endpoint; since telemetry calls return normally even when the sink loses
the emission, a telemetry failure never alters the HTTP outcome. -/
theorem telemetry_noninterference (t₁ t₂ : Telemetry) :
    (∀ cfg storage now,
      (healthHandler cfg t₁ storage now).status
        = (healthHandler cfg t₂ storage now).status ∧
      (healthHandler cfg t₁ storage now).body.status
        = (healthHandler cfg t₂ storage now).body.status ∧
      (healthHandler cfg t₁ storage now).body.timestamp
        = (healthHandler cfg t₂ storage now).body.timestamp ∧
      (healthHandler cfg t₁ storage now).body.environment
        = (healthHandler cfg t₂ storage now).body.environment ∧
      (healthHandler cfg t₁ storage now).body.version
        = (healthHandler cfg t₂ storage now).body.version ∧
      (healthHandler cfg t₁ storage now).body.storage
        = (healthHandler cfg t₂ storage now).body.storage) ∧
    (∀ cfg storage,
      (rootHandler cfg t₁ storage).status = (rootHandler cfg t₂ storage).status ∧
      (rootHandler cfg t₁ storage).body.message
        = (rootHandler cfg t₂ storage).body.message ∧
      (rootHandler cfg t₁ storage).body.version
        = (rootHandler cfg t₂ storage).body.version ∧
      (rootHandler cfg t₁ storage).body.environment
        = (rootHandler cfg t₂ storage).body.environment ∧
      (rootHandler cfg t₁ storage).body.endpoints
        = (rootHandler cfg t₂ storage).body.endpoints ∧
      (rootHandler cfg t₁ storage).body.storage
        = (rootHandler cfg t₂ storage).body.storage) ∧
    (∀ cfg,
      (getTasksHandler cfg t₁).status = (getTasksHandler cfg t₂).status ∧
      (getTasksHandler cfg t₁).body = (getTasksHandler cfg t₂).body) ∧
    (∀ s,
      (getTaskByIdHandler t₁ s).status = (getTaskByIdHandler t₂ s).status ∧
      (getTaskByIdHandler t₁ s).body = (getTaskByIdHandler t₂ s).body) ∧
    (∀ storage env now req,
      (postUploadHandler storage env t₁ now req).status
        = (postUploadHandler storage env t₂ now req).status ∧
      (postUploadHandler storage env t₁ now req).body
        = (postUploadHandler storage env t₂ now req).body ∧
      (postUploadHandler storage env t₁ now req).storeCalls
        = (postUploadHandler storage env t₂ now req).storeCalls) ∧
    (∀ svc env st,
      (getDbTasksHandler svc env st t₁).status
        = (getDbTasksHandler svc env st t₂).status ∧
      (getDbTasksHandler svc env st t₁).body
        = (getDbTasksHandler svc env st t₂).body ∧
      (getDbTasksHandler svc env st t₁).state
        = (getDbTasksHandler svc env st t₂).state ∧
      (getDbTasksHandler svc env st t₁).queries
        = (getDbTasksHandler svc env st t₂).queries) ∧
    (∀ svc env st id,
      (getDbTaskByIdHandler svc env st t₁ id).status
        = (getDbTaskByIdHandler svc env st t₂ id).status ∧
      (getDbTaskByIdHandler svc env st t₁ id).body
        = (getDbTaskByIdHandler svc env st t₂ id).body ∧
      (getDbTaskByIdHandler svc env st t₁ id).state
        = (getDbTaskByIdHandler svc env st t₂ id).state ∧
      (getDbTaskByIdHandler svc env st t₁ id).queries
        = (getDbTaskByIdHandler svc env st t₂ id).queries) ∧
    (∀ svc env st now title description,
      (postDbTasksHandler svc env st t₁ now title description).status
        = (postDbTasksHandler svc env st t₂ now title description).status ∧
      (postDbTasksHandler svc env st t₁ now title description).body
        = (postDbTasksHandler svc env st t₂ now title description).body ∧
      (postDbTasksHandler svc env st t₁ now title description).state
        = (postDbTasksHandler svc env st t₂ now title description).state ∧
      (postDbTasksHandler svc env st t₁ now title description).queries
        = (postDbTasksHandler svc env st t₂ now title description).queries) ∧
    (∀ svc env st now id title description completed,
      (putDbTaskHandler svc env st t₁ now id title description completed).status
        = (putDbTaskHandler svc env st t₂ now id title description completed).status ∧
      (putDbTaskHandler svc env st t₁ now id title description completed).body
        = (putDbTaskHandler svc env st t₂ now id title description completed).body ∧
      (putDbTaskHandler svc env st t₁ now id title description completed).state
        = (putDbTaskHandler svc env st t₂ now id title description completed).state ∧
      (putDbTaskHandler svc env st t₁ now id title description completed).queries
        = (putDbTaskHandler svc env st t₂ now id title description completed).queries) ∧
    (∀ svc env st id,
      (deleteDbTaskHandler svc env st t₁ id).status
        = (deleteDbTaskHandler svc env st t₂ id).status ∧
      (deleteDbTaskHandler svc env st t₁ id).body
        = (deleteDbTaskHandler svc env st t₂ id).body ∧
      (deleteDbTaskHandler svc env st t₁ id).state
        = (deleteDbTaskHandler svc env st t₂ id).state ∧
      (deleteDbTaskHandler svc env st t₁ id).queries
        = (deleteDbTaskHandler svc env st t₂ id).queries) := by
  refine ⟨fun cfg storage now => ⟨rfl, rfl, rfl, rfl, rfl, rfl⟩,
    fun cfg storage => ⟨rfl, rfl, rfl, rfl, rfl, rfl⟩,
    fun cfg => ⟨rfl, rfl⟩,
    fun s => ⟨rfl, rfl⟩,
    ?_, ?_, ?_, ?_, ?_, ?_⟩
  · intro storage env now req
    rcases hreq : multerSingle req with of | e
    · rcases of with _ | f
      · simp [postUploadHandler, hreq]
      · by_cases hc : storage.isConfigured = false
        · simp [postUploadHandler, hreq, hc]
        · rcases hres : storage.uploadFile env now f with m | r <;>
            simp [postUploadHandler, hreq, hc, hres]
    · simp [postUploadHandler, hreq]
  · intro svc env st
    by_cases hc : svc.isConfigured = false
    · simp [getDbTasksHandler, hc]
    · rcases hres : (svc.getAllTasks env st).result with m | ts <;>
        simp [getDbTasksHandler, hc, hres]
  · intro svc env st id
    by_cases hc : svc.isConfigured = false
    · simp [getDbTaskByIdHandler, hc]
    · rcases hres : (svc.getTaskById env st id).result with m | ot
      · simp [getDbTaskByIdHandler, hc, hres]
      · rcases ot with _ | t <;> simp [getDbTaskByIdHandler, hc, hres]
  · intro svc env st now title description
    by_cases hc : svc.isConfigured = false
    · simp [postDbTasksHandler, hc]
    · by_cases ht : jsTruthy title = false
      · simp [postDbTasksHandler, hc, ht]
      · rcases hres : (svc.createTask env st now (title.getD "")
            description).result with m | t <;>
          simp [postDbTasksHandler, hc, ht, hres]
  · intro svc env st now id title description completed
    by_cases hc : svc.isConfigured = false
    · simp [putDbTaskHandler, hc]
    · by_cases ht : jsTruthy title = false
      · simp [putDbTaskHandler, hc, ht]
      · rcases hres : (svc.updateTask env st now id (title.getD "")
            (jsStrOr description "") (completed.getD false)).result with m | ot
        · simp [putDbTaskHandler, hc, ht, hres]
        · rcases ot with _ | t <;> simp [putDbTaskHandler, hc, ht, hres]
  · intro svc env st id
    by_cases hc : svc.isConfigured = false
    · simp [deleteDbTaskHandler, hc]
    · rcases hres : (svc.deleteTask env st id).result with m | ot
      · simp [deleteDbTaskHandler, hc, hres]
      · rcases ot with _ | t <;> simp [deleteDbTaskHandler, hc, hres]

end AzureApi
